import Mathlib

/-!
Verification development for the batch AI-response analysis engine
(`analyze_ai_responses.py`).  The Python source is shallowly embedded:

* Python `str` values are Lean `String`s; the handful of Python string
  operations the source uses (`split`, `strip`, `find`, `rfind`, `in`)
  are re-implemented below on `List Char` with structural recursion so
  that every definition evaluates inside the kernel.
* JSON documents are the inductive type `JValue`; Python dicts are
  association lists whose update operation (`dictSet`) mirrors CPython
  dict semantics (replace in place, else append).
* The external dependencies `json.loads` (Python standard library) and
  `json_repair.repair_json` (third-party) are modelled by `json_loads`
  and `repair_json`; their doc comments state the modelling choices.
* The OpenAI network client is abstracted as a function from the attempt
  number to either an error message (a raised exception) or the returned
  message text.
* File persistence (`save_progress`) is modelled by recording the exact
  dictionary the source would serialize as a `Snapshot` value; a run
  produces the ordered trace of all snapshots it persisted.
-/

/-- JSON values.  Numbers are modelled as integers: every numeric literal
relevant to the analysed code paths is an integer, and the strict parser
model below simply fails on fractional/exponent syntax (documented
restriction of the `json.loads` model). -/
inductive JValue where
  | null : JValue
  | bool (b : Bool) : JValue
  | num (n : Int) : JValue
  | str (s : String) : JValue
  | arr (elems : List JValue) : JValue
  | obj (fields : List (String × JValue)) : JValue

/-- CPython dict assignment `d[k] = v`: replace the value at the first
occurrence of the key, keeping its position, else append the new pair. -/
def dictSet : List (String × JValue) → String → JValue → List (String × JValue)
  | [], k, v => [(k, v)]
  | (k0, v0) :: rest, k, v =>
      if k0 == k then (k0, v) :: rest else (k0, v0) :: dictSet rest k v

/-- Python `d.get(k)` on a dict: the value at the key, or `none`. -/
def jget (fields : List (String × JValue)) (k : String) : Option JValue :=
  (fields.find? (fun p => p.1 == k)).map (fun p => p.2)

/-- Python `v.get(k)` where `v` may be any JSON value: defined (as a lookup)
only on dicts; on other values the source would raise `AttributeError`,
a case none of the analysed paths reaches. -/
def jgetJ (v : JValue) (k : String) : Option JValue :=
  match v with
  | .obj fields => jget fields k
  | _ => none

/-- Whitespace accepted by Python's strict JSON parser (space, tab,
newline, carriage return). -/
def jsonWs (c : Char) : Bool :=
  c == ' ' || c == '\t' || c == '\n' || c == '\r'

/-- Drop leading JSON whitespace. -/
def skipWs (l : List Char) : List Char := l.dropWhile jsonWs

/-- Hexadecimal digit value, for `\uXXXX` escapes. -/
def hexVal (c : Char) : Option Nat :=
  let n := c.toNat
  if 48 ≤ n && n ≤ 57 then some (n - 48)
  else if 97 ≤ n && n ≤ 102 then some (n - 87)
  else if 65 ≤ n && n ≤ 70 then some (n - 55)
  else none

/-- Body of a strict JSON string literal, entered after the opening
quote.  Returns the decoded characters and the input following the
closing quote.  Mirrors Python `json.loads` strictness: raw control
characters are rejected, unknown escapes are rejected. -/
def parseStrChars : List Char → Option (List Char × List Char)
  | [] => none
  | c :: cs =>
    if c == '"' then some ([], cs)
    else if c == '\\' then
      match cs with
      | [] => none
      | e :: cs2 =>
        if e == '"' then (parseStrChars cs2).map (fun p => ('"' :: p.1, p.2))
        else if e == '\\' then (parseStrChars cs2).map (fun p => ('\\' :: p.1, p.2))
        else if e == '/' then (parseStrChars cs2).map (fun p => ('/' :: p.1, p.2))
        else if e == 'n' then (parseStrChars cs2).map (fun p => ('\n' :: p.1, p.2))
        else if e == 't' then (parseStrChars cs2).map (fun p => ('\t' :: p.1, p.2))
        else if e == 'r' then (parseStrChars cs2).map (fun p => ('\r' :: p.1, p.2))
        else if e == 'b' then (parseStrChars cs2).map (fun p => (Char.ofNat 8 :: p.1, p.2))
        else if e == 'f' then (parseStrChars cs2).map (fun p => (Char.ofNat 12 :: p.1, p.2))
        else if e == 'u' then
          match cs2 with
          | h1 :: h2 :: h3 :: h4 :: cs3 =>
            match hexVal h1, hexVal h2, hexVal h3, hexVal h4 with
            | some a, some b, some c2, some d =>
                (parseStrChars cs3).map
                  (fun p => (Char.ofNat (((a * 16 + b) * 16 + c2) * 16 + d) :: p.1, p.2))
            | _, _, _, _ => none
          | _ => none
        else none
    else if c.toNat < 32 then none
    else (parseStrChars cs).map (fun p => (c :: p.1, p.2))

/-- Decimal digit test. -/
def isDigitCh (c : Char) : Bool := 48 ≤ c.toNat && c.toNat ≤ 57

/-- Value of a digit string (most significant first). -/
def natFromDigits (l : List Char) : Nat :=
  l.foldl (fun acc c => 10 * acc + (c.toNat - 48)) 0

/-- Strict JSON integer literal: optional minus, then `0` or a nonzero
digit followed by digits.  Fractions and exponents are outside the model
(the remainder of the input keeps the `.`/`e`, so the enclosing parse
fails, a documented restriction). -/
def parseIntLit : List Char → Option (Int × List Char)
  | '-' :: rest =>
    (match rest with
     | '0' :: rest2 => some ((0 : Int), rest2)
     | c :: rest2 =>
       if isDigitCh c && c != '0' then
         let p := (c :: rest2).span isDigitCh
         some (-(Int.ofNat (natFromDigits p.1)), p.2)
       else none
     | [] => none)
  | '0' :: rest => some ((0 : Int), rest)
  | c :: rest =>
    if isDigitCh c && c != '0' then
      let p := (c :: rest).span isDigitCh
      some (Int.ofNat (natFromDigits p.1), p.2)
    else none
  | [] => none

/-- Parser mode: a top-level value, the members of an array after `[`,
or the members of an object after `\x7b` (each with the accumulated
prefix). -/
inductive PMode where
  | value : PMode
  | arrNext (acc : List JValue) : PMode
  | objNext (acc : List (String × JValue)) : PMode

/-- Fueled strict JSON parser (the model of Python `json.loads`, minus
floats).  The input list is expected to have leading whitespace already
skipped.  Duplicate object keys follow CPython semantics via `dictSet`
(last value wins, first position kept). -/
def parseP : Nat → PMode → List Char → Option (JValue × List Char)
  | 0, _, _ => none
  | fuel + 1, .value, l =>
    match l with
    | [] => none
    | '\x7b' :: rest =>
      (match skipWs rest with
       | '\x7d' :: r2 => some (.obj [], r2)
       | r => parseP fuel (.objNext []) r)
    | '[' :: rest =>
      (match skipWs rest with
       | ']' :: r2 => some (.arr [], r2)
       | r => parseP fuel (.arrNext []) r)
    | '"' :: rest =>
      (parseStrChars rest).map (fun p => (.str (String.mk p.1), p.2))
    | 't' :: 'r' :: 'u' :: 'e' :: rest => some (.bool true, rest)
    | 'f' :: 'a' :: 'l' :: 's' :: 'e' :: rest => some (.bool false, rest)
    | 'n' :: 'u' :: 'l' :: 'l' :: rest => some (.null, rest)
    | _ => (parseIntLit l).map (fun p => (.num p.1, p.2))
  | fuel + 1, .arrNext acc, l =>
    (match parseP fuel .value l with
     | some (v, r) =>
       (match skipWs r with
        | ',' :: r2 => parseP fuel (.arrNext (acc ++ [v])) (skipWs r2)
        | ']' :: r2 => some (.arr (acc ++ [v]), r2)
        | _ => none)
     | none => none)
  | fuel + 1, .objNext acc, l =>
    (match l with
     | '"' :: rest =>
       (match parseStrChars rest with
        | some (key, r1) =>
          (match skipWs r1 with
           | ':' :: r2 =>
             (match parseP fuel .value (skipWs r2) with
              | some (v, r3) =>
                (match skipWs r3 with
                 | ',' :: r4 => parseP fuel (.objNext (dictSet acc (String.mk key) v)) (skipWs r4)
                 | '\x7d' :: r4 => some (.obj (dictSet acc (String.mk key) v), r4)
                 | _ => none)
              | none => none)
           | _ => none)
        | none => none)
     | _ => none)

/-- Model of Python `json.loads` (restricted to integer numerics):
parse one value surrounded by optional whitespace; any trailing
non-whitespace is an error, as in the standard library. -/
def json_loads (s : String) : Option JValue :=
  match parseP (2 * s.toList.length + 8) PMode.value (skipWs s.toList) with
  | some (v, rest) => if (skipWs rest).isEmpty then some v else none
  | none => none

/-- Split point of the first occurrence of a (nonempty) separator:
the characters before it and the characters after it. -/
def findSplit (sep : List Char) : List Char → Option (List Char × List Char)
  | [] => none
  | c :: cs =>
    if sep.isPrefixOf (c :: cs) then some ([], (c :: cs).drop sep.length)
    else
      match findSplit sep cs with
      | some (pre, post) => some (c :: pre, post)
      | none => none

/-- Fueled worker for `pySplit`: split at each non-overlapping occurrence
of the separator, left to right. -/
def splitOnCl (sep : List Char) : Nat → List Char → List (List Char)
  | 0, l => [l]
  | fuel + 1, l =>
    match findSplit sep l with
    | none => [l]
    | some (pre, post) => pre :: splitOnCl sep fuel post

/-- Python `s.split(sep)` for a nonempty separator. -/
def pySplit (s sep : String) : List String :=
  (splitOnCl sep.toList (s.toList.length + 1) s.toList).map String.mk

/-- Python substring test `sep in s` (for nonempty `sep`). -/
def pyContains (s sep : String) : Bool :=
  2 ≤ (pySplit s sep).length

/-- Whitespace stripped by Python `str.strip()` (space, tab, newline,
carriage return, vertical tab, form feed). -/
def pySpace (c : Char) : Bool :=
  c == ' ' || c == '\t' || c == '\n' || c == '\r' ||
  c == Char.ofNat 11 || c == Char.ofNat 12

/-- Python `s.strip()`. -/
def pyStrip (s : String) : String :=
  String.mk (((s.toList.dropWhile pySpace).reverse.dropWhile pySpace).reverse)

/-- Python `s.find(c)` (index of the first occurrence, `none` for -1). -/
def pyFindChar (l : List Char) (c : Char) : Option Nat :=
  l.findIdx? (fun x => x == c)

/-- Python `s.rfind(c)` (index of the last occurrence, `none` for -1). -/
def pyRFindChar (l : List Char) (c : Char) : Option Nat :=
  match l.reverse.findIdx? (fun x => x == c) with
  | some i => some (l.length - 1 - i)
  | none => none

/-- One escaped character of JSON string output. -/
def escChar (c : Char) : List Char :=
  if c == '"' then ['\\', '"']
  else if c == '\\' then ['\\', '\\']
  else if c == '\n' then ['\\', 'n']
  else if c == '\t' then ['\\', 't']
  else if c == '\r' then ['\\', 'r']
  else if c.toNat < 32 then
    let d1 := c.toNat / 16
    let d2 := c.toNat % 16
    ['\\', 'u', '0', '0',
     (if d1 < 10 then Char.ofNat ('0'.toNat + d1) else Char.ofNat ('a'.toNat + d1 - 10)),
     (if d2 < 10 then Char.ofNat ('0'.toNat + d2) else Char.ofNat ('a'.toNat + d2 - 10))]
  else [c]

/-- JSON string escaping. -/
def escapeChars (l : List Char) : List Char :=
  l.foldr (fun c acc => escChar c ++ acc) []

/-- Comma-join of rendered pieces. -/
def joinComma (l : List (List Char)) : List Char :=
  List.intercalate [','] l

/-- Fueled JSON serializer (fuel bounds the nesting depth). -/
def serializeJF : Nat → JValue → List Char
  | 0, _ => []
  | _ + 1, .null => ['n', 'u', 'l', 'l']
  | _ + 1, .bool true => ['t', 'r', 'u', 'e']
  | _ + 1, .bool false => ['f', 'a', 'l', 's', 'e']
  | _ + 1, .num n => (toString n).toList
  | _ + 1, .str s => '"' :: escapeChars s.toList ++ ['"']
  | fuel + 1, .arr xs => '[' :: joinComma (xs.map (serializeJF fuel)) ++ [']']
  | fuel + 1, .obj fs =>
      '\x7b' :: joinComma (fs.map (fun p =>
        '"' :: escapeChars p.1.toList ++ ['"', ':'] ++ serializeJF fuel p.2)) ++ ['\x7d']

/-- Lenient string body for the repair model: decoded up to the closing
quote, or, if the input is truncated, up to its end.  Unknown escapes
keep the escaped character. -/
def lenientStr : List Char → (List Char × List Char)
  | [] => ([], [])
  | c :: cs =>
    if c == '"' then ([], cs)
    else if c == '\\' then
      match cs with
      | [] => ([], [])
      | e :: cs2 =>
        let dec := if e == 'n' then '\n' else if e == 't' then '\t'
          else if e == 'r' then '\r' else e
        let p := lenientStr cs2
        (dec :: p.1, p.2)
    else
      let p := lenientStr cs
      (c :: p.1, p.2)

/-- Characters at which the repair model starts looking for a JSON
document. -/
def repairStart (c : Char) : Bool :=
  c == '\x7b' || c == '[' || c == '"' || c == '-' || isDigitCh c

/-- Fueled lenient JSON parser: the core of the `json_repair` model.
Truncated objects and arrays are closed at end of input; a key whose
value is missing receives the empty string; junk after a member closes
the container. -/
def lenientP : Nat → PMode → List Char → Option (JValue × List Char)
  | 0, _, _ => none
  | fuel + 1, .value, l =>
    match l with
    | [] => none
    | '\x7b' :: rest =>
      (match skipWs rest with
       | '\x7d' :: r2 => some (.obj [], r2)
       | r => lenientP fuel (.objNext []) r)
    | '[' :: rest =>
      (match skipWs rest with
       | ']' :: r2 => some (.arr [], r2)
       | r => lenientP fuel (.arrNext []) r)
    | '"' :: rest =>
      let p := lenientStr rest
      some (.str (String.mk p.1), p.2)
    | 't' :: 'r' :: 'u' :: 'e' :: rest => some (.bool true, rest)
    | 'f' :: 'a' :: 'l' :: 's' :: 'e' :: rest => some (.bool false, rest)
    | 'n' :: 'u' :: 'l' :: 'l' :: rest => some (.null, rest)
    | _ => (parseIntLit l).map (fun p => (.num p.1, p.2))
  | fuel + 1, .arrNext acc, l =>
    (match l with
     | [] => some (.arr acc, [])
     | ']' :: r => some (.arr acc, r)
     | _ =>
       match lenientP fuel .value l with
       | some (v, r) =>
         (match skipWs r with
          | ',' :: r2 => lenientP fuel (.arrNext (acc ++ [v])) (skipWs r2)
          | ']' :: r2 => some (.arr (acc ++ [v]), r2)
          | [] => some (.arr (acc ++ [v]), [])
          | r2 => some (.arr (acc ++ [v]), r2))
       | none => some (.arr acc, l))
  | fuel + 1, .objNext acc, l =>
    (match l with
     | [] => some (.obj acc, [])
     | '\x7d' :: r => some (.obj acc, r)
     | '"' :: rest =>
       let pk := lenientStr rest
       let key := String.mk pk.1
       (match skipWs pk.2 with
        | ':' :: r2 =>
          (match lenientP fuel .value (skipWs r2) with
           | some (v, r3) =>
             (match skipWs r3 with
              | ',' :: r4 => lenientP fuel (.objNext (dictSet acc key v)) (skipWs r4)
              | '\x7d' :: r4 => some (.obj (dictSet acc key v), r4)
              | [] => some (.obj (dictSet acc key v), [])
              | r4 => some (.obj (dictSet acc key v), r4))
           | none =>
             (match skipWs r2 with
              | ',' :: r4 => lenientP fuel (.objNext (dictSet acc key (.str ""))) (skipWs r4)
              | '\x7d' :: r4 => some (.obj (dictSet acc key (.str "")), r4)
              | _ => some (.obj (dictSet acc key (.str "")), [])))
        | ',' :: r2 => lenientP fuel (.objNext (dictSet acc key (.str ""))) (skipWs r2)
        | '\x7d' :: r2 => some (.obj (dictSet acc key (.str "")), r2)
        | _ => some (.obj (dictSet acc key (.str "")), []))
     | _ => some (.obj acc, l))

/-- Modelled from the behaviour of the external third-party dependency
`json_repair.repair_json` (not part of this repository): a best-effort
structural repair that scans for the first JSON-like start, parses
leniently (closing truncated containers, supplying `""` for dangling
keys), and re-serializes the result; when no JSON-like content is found
or even the lenient parse fails, it returns the empty string (which the
caller's `json.loads` then rejects, i.e. the repair strategy fails). -/
def repair_json (s : String) : String :=
  let l := skipWs s.toList
  match l.dropWhile (fun c => !repairStart c) with
  | [] => ""
  | l2 =>
    match lenientP (2 * s.toList.length + 8) PMode.value l2 with
    | some (v, _) => String.mk (serializeJF (2 * s.toList.length + 8) v)
    | none => ""

/-- Error message of the `ValueError` raised when every recovery
strategy fails (`analyze_ai_responses.py` line 163). -/
def malformedMsg : String := "无法提取或修复JSON"

/-- Interior of the first ```` ```json ```` fenced block:
`text.split("```json")[1].split("```")[0].strip()`. -/
def fencedJsonPiece (t : String) : String :=
  pyStrip ((pySplit ((pySplit t "```json").getD 1 "") "```").getD 0 "")

/-- Interior of the first ```` ``` ```` fenced block:
`text.split("```")[1].split("```")[0].strip()`. -/
def fencedPiece (t : String) : String :=
  pyStrip ((pySplit ((pySplit t "```").getD 1 "") "```").getD 0 "")

/-- Substring from the first `\x7b` to the last `\x7d`
(`text[first_brace:last_brace+1]`), when both braces exist. -/
def braceSlice (t : String) : Option String :=
  match pyFindChar t.toList '\x7b', pyRFindChar t.toList '\x7d' with
  | some f, some l => some (String.mk ((t.toList.drop f).take (l + 1 - f)))
  | _, _ => none

/-- Strategy 1: parse the whole text directly. -/
def strat1 (t : String) : Option JValue := json_loads t

/-- Strategy 2: parse the interior of a ```` ```json ````-tagged fenced
block, when one exists. -/
def strat2 (t : String) : Option JValue :=
  if pyContains t "```json" then json_loads (fencedJsonPiece t) else none

/-- Strategy 3: parse the interior of any fenced block, when one
exists. -/
def strat3 (t : String) : Option JValue :=
  if pyContains t "```" then json_loads (fencedPiece t) else none

/-- Strategy 4: parse the first-brace-to-last-brace slice, when both
braces exist. -/
def strat4 (t : String) : Option JValue :=
  match braceSlice t with
  | some s => json_loads s
  | none => none

/-- Candidate substrings handed to the repair pass, in source order:
the full text, the tagged fenced interior, the untagged fenced interior,
and the brace slice (each only when applicable). -/
def repairCandidates (t : String) : List String :=
  [t]
    ++ (if pyContains t "```json" then [fencedJsonPiece t] else [])
    ++ (if pyContains t "```" then [fencedPiece t] else [])
    ++ (match braceSlice t with | some s => [s] | none => [])

/-- First defined element, in order (the first-success-wins combinator). -/
def firstSome {α : Type} : List (Option α) → Option α
  | [] => none
  | some v :: _ => some v
  | none :: rest => firstSome rest

/-- Strategy 5: repair each candidate in order and parse the repaired
text; first success wins. -/
def strat5 (t : String) : Option JValue :=
  firstSome ((repairCandidates t).map (fun c => json_loads (repair_json c)))

/-- The recovery pipeline `extract_and_parse_json` (source lines
100-163), written exactly as the source's sequence of guarded
try/except blocks: each stage runs only if all previous stages failed,
and the final failure raises `ValueError(malformedMsg)`. -/
def extract_and_parse_json (text : String) : Except String JValue :=
  match json_loads text with
  | some v => .ok v
  | none =>
    match (if pyContains text "```json" then json_loads (fencedJsonPiece text) else none) with
    | some v => .ok v
    | none =>
      match (if pyContains text "```" then json_loads (fencedPiece text) else none) with
      | some v => .ok v
      | none =>
        match (match braceSlice text with | some s => json_loads s | none => none) with
        | some v => .ok v
        | none =>
          match firstSome ((repairCandidates text).map (fun c => json_loads (repair_json c))) with
          | some v => .ok v
          | none => .error malformedMsg

/-- The ordered strategy list, for stating the first-success-wins
property. -/
def stratChain (t : String) : Option JValue :=
  firstSome [strat1 t, strat2 t, strat3 t, strat4 t, strat5 t]

/-- View of an optional recovered value as the pipeline's outcome. -/
def chainToExcept (o : Option JValue) : Except String JValue :=
  match o with
  | some v => .ok v
  | none => .error malformedMsg

/-- The reserved sentinel status marking a terminal-failure placeholder
(`"⚠️ 分析失败"`). -/
def sentinelStatus : String := "⚠️ 分析失败"

/-- The required fields checked by the Record Processor (source line
199). -/
def required_fields : List String :=
  ["Platform", "User_Query", "AI_Response", "Security_Status"]

/-- Key-presence test on a dict. -/
def hasKey (fields : List (String × JValue)) (k : String) : Bool :=
  fields.any (fun p => p.1 == k)

/-- Python rendering of the list of missing field names, used in the
`ValueError` message. -/
def missingMsg (fields : List (String × JValue)) : String :=
  "缺少必要字段: " ++
    String.intercalate ", " (required_fields.filter (fun f => !hasKey fields f))

/-- The validation step `all(field in result for field in
required_fields)` followed by `raise ValueError(...)` when it fails
(source lines 199-205).  Python's `in` is key membership on a dict,
substring containment on a string, element membership on a list, and a
`TypeError` on any other value; the check is presence only, never
non-emptiness. -/
def checkRequired (v : JValue) : Except String Unit :=
  match v with
  | .obj fields =>
    if required_fields.all (fun f => hasKey fields f) then .ok ()
    else .error (missingMsg fields)
  | .str s =>
    if required_fields.all (fun f => pyContains s f) then .ok ()
    else .error ("缺少必要字段: " ++
      String.intercalate ", " (required_fields.filter (fun f => !pyContains s f)))
  | .arr xs =>
    if required_fields.all (fun f => xs.any (fun x =>
        match x with | .str t => t == f | _ => false)) then .ok ()
    else .error "缺少必要字段"
  | _ => .error "argument is not iterable"

/-- The placeholder returned on the final failed attempt (source lines
217-227): sentinel status, the failure reason, and the original record
content carried verbatim. -/
def failurePlaceholder (question ai_response platform : String)
    (max_retries : Nat) (errMsg : String) : JValue :=
  .obj [("Platform", .str platform),
        ("User_Query", .str question),
        ("AI_Response", .str ai_response),
        ("Security_Status", .str sentinelStatus),
        ("Risk_Diagnosis", .str ("解析错误（已重试" ++ toString max_retries ++ "次）: " ++ errMsg)),
        ("Fact_Tech", .str "N/A"),
        ("Brand_Impression", .str "N/A"),
        ("Comp_Position", .str "N/A"),
        ("Strategy_Action", .str "需要手动检查原始回复")]

/-- The post-loop fallback placeholder (source lines 230-240, the
`"未知错误"` branch). -/
def unknownPlaceholder (question ai_response platform : String) : JValue :=
  .obj [("Platform", .str platform),
        ("User_Query", .str question),
        ("AI_Response", .str ai_response),
        ("Security_Status", .str sentinelStatus),
        ("Risk_Diagnosis", .str "未知错误"),
        ("Fact_Tech", .str "N/A"),
        ("Brand_Impression", .str "N/A"),
        ("Comp_Position", .str "N/A"),
        ("Strategy_Action", .str "需要手动检查")]

/-- One attempt of the retry loop body (the `try` block of source lines
178-205): call the generator, strip the reply, run the recovery
pipeline, validate required fields.  `gen` abstracts the OpenAI client:
it maps the attempt number to either a raised error's message or the
returned message content; any stage's failure is the caught exception's
message. -/
def attemptStep (gen : Nat → Except String String) (attempt : Nat) :
    Except String JValue :=
  match gen attempt with
  | .error e => .error e
  | .ok txt =>
    match extract_and_parse_json (pyStrip txt) with
    | .error e => .error e
    | .ok result =>
      match checkRequired result with
      | .ok _ => .ok result
      | .error e => .error e

/-- The retry loop of `analyze_single_response` (source lines 177-227):
`attempt` is the current 0-based attempt index, the second argument the
number of loop iterations remaining.  Returns the value returned from
inside the loop (`none` when the loop exits without returning, which
happens only when it runs zero iterations) together with the number of
generator invocations made. -/
def attemptLoop (gen : Nat → Except String String)
    (question ai_response platform : String) (max_retries : Nat) :
    Nat → Nat → Option JValue × Nat
  | _, 0 => (none, 0)
  | attempt, remaining + 1 =>
    match attemptStep gen attempt with
    | .ok r => (some r, 1)
    | .error e =>
      if attempt == max_retries - 1 then
        (some (failurePlaceholder question ai_response platform max_retries e), 1)
      else
        let next := attemptLoop gen question ai_response platform max_retries
          (attempt + 1) remaining
        (next.1, next.2 + 1)

/-- The Record Processor `analyze_single_response` (source lines
166-240): run the retry loop; if it falls through (only possible for
`max_retries = 0`), return the post-loop fallback placeholder.  The
function is total: no ordinary exception escapes this boundary. -/
def analyze_single_response (gen : Nat → Except String String)
    (question ai_response platform : String) (max_retries : Nat) : JValue :=
  match (attemptLoop gen question ai_response platform max_retries 0 max_retries).1 with
  | some r => r
  | none => unknownPlaceholder question ai_response platform

/-- Number of generator (network) invocations a call to
`analyze_single_response` performs. -/
def analyzeGenCalls (gen : Nat → Except String String)
    (question ai_response platform : String) (max_retries : Nat) : Nat :=
  (attemptLoop gen question ai_response platform max_retries 0 max_retries).2

/-- One CSV row as produced by `csv.DictReader`, restricted to the five
columns the source reads (`问题`, `回答`, `AI平台`, `序号`, `填写人`);
`none` models an absent column. -/
structure Row where
  question : Option String
  answer : Option String
  platform : Option String
  serial : Option String
  filler : Option String

/-- The progress dictionary written by `save_progress` (source lines
245-260), minus the wall-clock fields `csv_file_abs` and `last_update`
(calls to `os.path.abspath` and `datetime.now`, external to the model). -/
structure Snapshot where
  csv_file : String
  total : Nat
  processed : Nat
  results : List JValue
  rows_data : List Row
  start_time : String

/-- Placeholder snapshot used as the default of `List.getD`. -/
def dummySnap : Snapshot := ⟨"", 0, 0, [], [], ""⟩

/-- The ledger write `save_progress(csv_path, total, processed, results,
start_time, rows_data)`: the model records the exact dictionary the
source serializes to `.analysis_progress.json`. -/
def save_progress (csv_path : String) (total processed : Nat)
    (results : List JValue) (start_time : String) (rows_data : List Row) : Snapshot :=
  ⟨csv_path, total, processed, results, rows_data, start_time⟩

/-- The skip condition of the batch loop (source line 355):
`not question or not ai_response` on the row's `问题`/`回答` values
(with `''` defaults). -/
def rowSkipped (row : Row) : Bool :=
  row.question.getD "" == "" || row.answer.getD "" == ""

/-- Decoration of a processed record's result (source lines 371-372):
`analysis_result['序号'] = row.get('序号', current_idx)` then
`analysis_result['填写人'] = row.get('填写人', '')`. -/
def decorateBatch (fields : List (String × JValue)) (row : Row)
    (current_idx : Nat) : JValue :=
  .obj (dictSet
          (dictSet fields "序号"
            (match row.serial with
             | some s => .str s
             | none => .num (Int.ofNat current_idx)))
          "填写人" (.str (row.filler.getD "")))

/-- A fatal error aborting the batch: the `TypeError` raised by the
`analysis_result['序号'] = ...` item assignment when the Record
Processor returned a non-dict value, re-raised by the loop's
`except Exception` handler. -/
inductive RunErr where
  | typeError : RunErr

/-- The batch loop of `analyze_csv_data` (source lines 344-394): iterate
over the remaining rows with `idx` the 0-based index of the head of
`todo` in `rows`; skip (but persist with the advanced count) rows with
empty question or response; otherwise process, decorate, append, and
persist.  `proc` abstracts `analyze_single_response` applied to the
loaded framework texts.  Returns the final outcome (results on
completion, the propagated error otherwise) and the ordered trace of
persisted snapshots. -/
def batchLoop (proc : String → String → String → JValue) (csv_path : String)
    (total : Nat) (start_time : String) (rows : List Row) :
    List Row → Nat → List JValue → Except RunErr (List JValue) × List Snapshot
  | [], _, results => (.ok results, [])
  | row :: todo, idx, results =>
    if rowSkipped row then
      let snap := save_progress csv_path total (idx + 1) results start_time rows
      let next := batchLoop proc csv_path total start_time rows todo (idx + 1) results
      (next.1, snap :: next.2)
    else
      match proc (row.question.getD "") (row.answer.getD "") (row.platform.getD "") with
      | .obj fields =>
        let r := decorateBatch fields row (idx + 1)
        let results2 := results ++ [r]
        let snap := save_progress csv_path total (idx + 1) results2 start_time rows
        let next := batchLoop proc csv_path total start_time rows todo (idx + 1) results2
        (next.1, snap :: next.2)
      | _ => (.error RunErr.typeError, [])

/-- `analyze_csv_data` (source lines 303-396): a fresh run starts at
index 0 with no results; a resumed run restores rows, results and the
start index from the loaded progress snapshot.  The CSV contents are the
`csvRows` parameter (file reading is external to the model); on
completion the progress file is cleared and the results returned. -/
def analyze_csv_data (proc : String → String → String → JValue)
    (csv_path start_time : String) (csvRows : List Row)
    (resume : Option Snapshot) : Except RunErr (List JValue) × List Snapshot :=
  match resume with
  | some pr =>
    batchLoop proc csv_path pr.rows_data.length pr.start_time pr.rows_data
      (pr.rows_data.drop pr.processed) pr.processed pr.results
  | none =>
    batchLoop proc csv_path csvRows.length start_time csvRows csvRows 0 []

/-- Per the amended completeness claim: the results a completed fresh
run accumulates, one decorated entry per record whose question and
response are both non-empty, in input order, none for a skipped record.
`idx` is the 0-based position of the sublist's head in the full row
list. -/
def expectedResultsFrom (procF : String → String → String → List (String × JValue)) :
    List Row → Nat → List JValue
  | [], _ => []
  | row :: todo, idx =>
    if rowSkipped row then expectedResultsFrom procF todo (idx + 1)
    else
      decorateBatch (procF (row.question.getD "") (row.answer.getD "") (row.platform.getD ""))
          row (idx + 1)
        :: expectedResultsFrom procF todo (idx + 1)

/-- The snapshot trace a fresh-run batch loop emits from a given state,
for stating the ledger claims. -/
def snapTrace (procF : String → String → String → List (String × JValue))
    (csv_path : String) (total : Nat) (start_time : String) (rows : List Row) :
    List Row → Nat → List JValue → List Snapshot
  | [], _, _ => []
  | row :: todo, idx, results =>
    if rowSkipped row then
      save_progress csv_path total (idx + 1) results start_time rows
        :: snapTrace procF csv_path total start_time rows todo (idx + 1) results
    else
      let r := decorateBatch
        (procF (row.question.getD "") (row.answer.getD "") (row.platform.getD ""))
        row (idx + 1)
      save_progress csv_path total (idx + 1) (results ++ [r]) start_time rows
        :: snapTrace procF csv_path total start_time rows todo (idx + 1) (results ++ [r])

/-- `find_failed_analyses` worker (source lines 520-528): indices of the
entries whose `Security_Status` equals the sentinel. -/
def isFailed (r : List (String × JValue)) : Bool :=
  match jget r "Security_Status" with
  | some (.str s) => s == sentinelStatus
  | _ => false

/-- Worker for `find_failed_analyses`, carrying the running index. -/
def findFailedAux : List (List (String × JValue)) → Nat → List Nat
  | [], _ => []
  | r :: rs, idx =>
    if isFailed r then idx :: findFailedAux rs (idx + 1)
    else findFailedAux rs (idx + 1)

/-- `find_failed_analyses(results)` (source lines 520-528). -/
def find_failed_analyses (results : List (List (String × JValue))) : List Nat :=
  findFailedAux results 0

/-- One iteration of the `reanalyze_failed_items` loop (source lines
542-563): re-run the processor on the placeholder's embedded original
content (`User_Query`/`AI_Response`/`Platform`, with `''` defaults),
restore `序号`/`填写人` from the old entry (both with `''` defaults
here), and write the new result back at the same index.  The indices
are those produced by `find_failed_analyses`, hence in range — the
out-of-range `IndexError` case is not modelled. -/
def triageStep (proc : JValue → JValue → JValue → JValue)
    (acc : List (List (String × JValue))) (fidx : Nat) :
    Except RunErr (List (List (String × JValue))) :=
  let result := acc.getD fidx []
  match proc ((jget result "User_Query").getD (.str ""))
        ((jget result "AI_Response").getD (.str ""))
        ((jget result "Platform").getD (.str "")) with
  | .obj nfields =>
    let nfields2 := dictSet
      (dictSet nfields "序号" ((jget result "序号").getD (.str "")))
      "填写人" ((jget result "填写人").getD (.str ""))
    .ok (acc.set fidx nfields2)
  | _ => .error RunErr.typeError

/-- `reanalyze_failed_items(results, failed_indices, ...)` (source lines
531-567): update each failed index in order; with no failed indices the
input list is returned unchanged. -/
def reanalyze_failed_items (proc : JValue → JValue → JValue → JValue)
    (results : List (List (String × JValue))) (failed : List Nat) :
    Except RunErr (List (List (String × JValue))) :=
  failed.foldl
    (fun eacc fidx =>
      match eacc with
      | .error e => .error e
      | .ok acc => triageStep proc acc fidx)
    (.ok results)

/-- Concrete input of the recovery-chain claim: JSON surrounded by
noise. -/
def noisyInput : String := "noise \x7b\"a\":1\x7d noise"

/-- Concrete input of the recovery-chain claim: truncated JSON. -/
def truncatedInput : String := "\x7b\"a\":1,\"b\":"

/-- Whether every one of the five recovery strategies fails on a given
text. -/
def allStrategiesFail (t : String) : Bool :=
  (strat1 t).isNone && (strat2 t).isNone && (strat3 t).isNone &&
  (strat4 t).isNone && (strat5 t).isNone

/-- Whether an attempt outcome is a caught exception. -/
def stepIsError (e : Except String JValue) : Bool :=
  match e with
  | .error _ => true
  | .ok _ => false

/-- Message of a failed attempt (the caught exception's `str(e)`);
`""` for a successful attempt. -/
def stepErrMsg (gen : Nat → Except String String) (i : Nat) : String :=
  match attemptStep gen i with
  | .error e => e
  | .ok _ => ""

/-- Generator stub whose reply parses but lacks the required fields. -/
def genInvalidFields : Nat → Except String String :=
  fun _ => .ok "\x7b\"x\":1\x7d"

/-- Generator stub whose reply has all four required fields present but
empty. -/
def genEmptyFields : Nat → Except String String :=
  fun _ => .ok
    "\x7b\"Platform\":\"\",\"User_Query\":\"\",\"AI_Response\":\"\",\"Security_Status\":\"\"\x7d"

/-- The parsed reply of `genEmptyFields`. -/
def emptyFieldsObj : List (String × JValue) :=
  [("Platform", .str ""), ("User_Query", .str ""),
   ("AI_Response", .str ""), ("Security_Status", .str "")]

/-- Generator stub that always raises. -/
def genBoom : Nat → Except String String := fun _ => .error "boom"

/-- A row whose question is empty: the batch loop skips it. -/
def skipRow : Row := ⟨some "", some "resp", some "P", none, none⟩

/-- A row with non-empty question and response. -/
def okRow : Row := ⟨some "q1", some "r1", some "P1", none, none⟩

/-- Field set returned by the dummy processors of the concrete batch
runs. -/
def stubFields : List (String × JValue) :=
  [("Platform", .str "P1"), ("User_Query", .str "q1"),
   ("AI_Response", .str "r1"), ("Security_Status", .str "🟢安全")]

/-- An already-fully-recovered result collection (no sentinel entries). -/
def resolvedResults : List (List (String × JValue)) :=
  [[("Security_Status", JValue.str "🟢安全"), ("User_Query", JValue.str "q1")]]

theorem extract_eq_chain (t : String) :
    extract_and_parse_json t = chainToExcept (stratChain t) := by
  unfold extract_and_parse_json stratChain strat1 strat2 strat3 strat4 strat5 chainToExcept
  cases json_loads t with
  | some v => rfl
  | none =>
    cases h2 : (if pyContains t "```json" then json_loads (fencedJsonPiece t) else none) with
    | some v => rfl
    | none =>
      cases h3 : (if pyContains t "```" then json_loads (fencedPiece t) else none) with
      | some v => rfl
      | none =>
        cases h4 : (match braceSlice t with | some s => json_loads s | none => none) with
        | some v => rfl
        | none =>
          cases h5 : firstSome ((repairCandidates t).map (fun c => json_loads (repair_json c))) with
          | some v => rfl
          | none => rfl

example : pySplit "a,b,,c" "," = ["a", "b", "", "c"] := rfl

example : pySplit "aaa" "aa" = ["", "a"] := rfl

example : pyContains "x```json y" "```json" = true := rfl

example : pyStrip "  hi \n" = "hi" := rfl

example : pyFindChar "ab\x7bc\x7b".toList '\x7b' = some 2 := rfl

example : pyRFindChar "ab\x7bc\x7b".toList '\x7b' = some 4 := rfl

example : pyRFindChar "abc".toList '\x7b' = none := rfl

example : json_loads "\x7b\"a\":1\x7d" = some (.obj [("a", .num 1)]) := rfl

example : json_loads " \x7b \"a\" : 1 , \"b\" : \"x\" \x7d " =
    some (.obj [("a", .num 1), ("b", .str "x")]) := rfl

example : json_loads "\x7b\"a\":1,\"b\":" = none := rfl

example : json_loads "[1, -2, null, true]" =
    some (.arr [.num 1, .num (-2), .null, .bool true]) := rfl

example : json_loads "noise" = none := rfl

example : json_loads "\"he\\nllo\"" = some (.str "he\nllo") := rfl

example : repair_json "\x7b\"a\":1,\"b\":" = "\x7b\"a\":1,\"b\":\"\"\x7d" := rfl

example : json_loads (repair_json "\x7b\"a\":1,\"b\":") =
    some (.obj [("a", .num 1), ("b", .str "")]) := rfl

example : repair_json "hello" = "" := rfl

example : json_loads "" = none := rfl

example :
    analyze_single_response (fun _ => .ok "\x7b\"x\":1\x7d") "q" "r" "p" 3 =
      failurePlaceholder "q" "r" "p" 3
        "缺少必要字段: Platform, User_Query, AI_Response, Security_Status" := rfl

example : analyzeGenCalls (fun _ => .ok "\x7b\"x\":1\x7d") "q" "r" "p" 3 = 3 := rfl

example :
    analyze_single_response
      (fun _ => .ok "\x7b\"Platform\":\"P\",\"User_Query\":\"q\",\"AI_Response\":\"r\",\"Security_Status\":\"🟢安全\"\x7d")
      "q" "r" "p" 3 =
      .obj [("Platform", .str "P"), ("User_Query", .str "q"),
            ("AI_Response", .str "r"), ("Security_Status", .str "🟢安全")] := rfl

example : analyze_single_response (fun _ => .error "boom") "q" "r" "p" 0 =
    unknownPlaceholder "q" "r" "p" := rfl

/-- C4: `extract_and_parse_json` attempts its strategies in the fixed
order (direct parse, tagged fenced block, any fenced block,
first-brace-to-last-brace, repair of the candidates) with first success
winning; on `noisyInput` strategies 1-3 fail and strategy 4 succeeds
without the repair pass, and on `truncatedInput` strategies 1-4 fail
while the repair strategy yields an object whose key `"a"` maps to `1`. -/
theorem c4_recovery_chain_ordering :
    (∀ t, extract_and_parse_json t = chainToExcept (stratChain t))
    ∧ (strat1 noisyInput = none ∧ strat2 noisyInput = none
       ∧ strat3 noisyInput = none
       ∧ strat4 noisyInput = some (.obj [("a", .num 1)])
       ∧ extract_and_parse_json noisyInput = .ok (.obj [("a", .num 1)]))
    ∧ (strat1 truncatedInput = none ∧ strat2 truncatedInput = none
       ∧ strat3 truncatedInput = none ∧ strat4 truncatedInput = none
       ∧ strat5 truncatedInput = some (.obj [("a", .num 1), ("b", .str "")])
       ∧ extract_and_parse_json truncatedInput = .ok (.obj [("a", .num 1), ("b", .str "")])
       ∧ jgetJ (.obj [("a", .num 1), ("b", .str "")]) "a" = some (.num 1)) :=
  ⟨extract_eq_chain, ⟨rfl, rfl, rfl, rfl, rfl⟩, ⟨rfl, rfl, rfl, rfl, rfl, rfl, rfl⟩⟩

/-- C7: whenever all five strategies fail, `extract_and_parse_json`
fails with exactly the `ValueError` raised at its end, and that is the
only error the (total) function can produce — no parse exception from an
individual strategy escapes. -/
theorem c7_recovery_failure_condition :
    (∀ t, allStrategiesFail t = true →
        extract_and_parse_json t = .error malformedMsg)
    ∧ (∀ t e, extract_and_parse_json t = .error e → e = malformedMsg) := by
  constructor
  · intro t h
    rw [extract_eq_chain]
    unfold allStrategiesFail at h
    simp only [Bool.and_eq_true, Option.isNone_iff_eq_none] at h
    unfold stratChain
    rw [h.1.1.1.1, h.1.1.1.2, h.1.1.2, h.1.2, h.2]
    rfl
  · intro t e h
    rw [extract_eq_chain] at h
    cases hc : stratChain t with
    | some v => rw [hc] at h; simp [chainToExcept] at h
    | none =>
      rw [hc] at h
      simp only [chainToExcept, Except.error.injEq] at h
      exact h.symm

/-- Witness for C7 at the concrete text `"hello"`, on which every
strategy fails. -/
theorem c7_witness :
    extract_and_parse_json "hello" = .error malformedMsg
    ∧ malformedMsg = malformedMsg :=
  ⟨c7_recovery_failure_condition.1 "hello" rfl,
   c7_recovery_failure_condition.2 "hello" malformedMsg
     (c7_recovery_failure_condition.1 "hello" rfl)⟩

theorem attemptStep_ok_check (gen : Nat → Except String String) (i : Nat)
    (v : JValue) (h : attemptStep gen i = .ok v) : checkRequired v = .ok () := by
  unfold attemptStep at h
  cases hg : gen i with
  | error e => rw [hg] at h; cases h
  | ok txt =>
    rw [hg] at h
    simp only [] at h
    cases he : extract_and_parse_json (pyStrip txt) with
    | error e => rw [he] at h; cases h
    | ok result =>
      rw [he] at h
      simp only [] at h
      cases hc : checkRequired result with
      | ok u =>
        rw [hc] at h
        cases h
        cases u
        exact hc
      | error e => rw [hc] at h; cases h

theorem attemptLoop_sound (gen : Nat → Except String String) (q a p : String)
    (mr : Nat) :
    ∀ remaining attempt r,
      (attemptLoop gen q a p mr attempt remaining).1 = some r →
      checkRequired r = .ok ()
      ∨ (jgetJ r "Security_Status" = some (.str sentinelStatus)
         ∧ jgetJ r "User_Query" = some (.str q)
         ∧ jgetJ r "AI_Response" = some (.str a)) := by
  intro remaining
  induction remaining with
  | zero => intro attempt r h; cases h
  | succ n ih =>
    intro attempt r h
    unfold attemptLoop at h
    cases hs : attemptStep gen attempt with
    | ok v =>
      rw [hs] at h
      have h2 : some v = some r := h
      cases h2
      exact Or.inl (attemptStep_ok_check gen attempt _ hs)
    | error e =>
      rw [hs] at h
      cases hb : (attempt == mr - 1) with
      | true =>
        rw [hb] at h
        have h2 : some (failurePlaceholder q a p mr e) = some r := h
        cases h2
        exact Or.inr ⟨rfl, rfl, rfl⟩
      | false =>
        rw [hb] at h
        exact ih (attempt + 1) r h

/-- C3: `analyze_single_response` is total (no ordinary exception
escapes its boundary, modelled by the function being defined on every
input) and returns either a value passing the required-field check or a
placeholder whose status equals the reserved sentinel and whose
`User_Query`/`AI_Response` fields are exactly the input record's
question and response strings. -/
theorem c3_processor_contract (gen : Nat → Except String String)
    (question ai_response platform : String) (max_retries : Nat) :
    checkRequired (analyze_single_response gen question ai_response platform max_retries) = .ok ()
    ∨ (jgetJ (analyze_single_response gen question ai_response platform max_retries)
          "Security_Status" = some (.str sentinelStatus)
       ∧ jgetJ (analyze_single_response gen question ai_response platform max_retries)
          "User_Query" = some (.str question)
       ∧ jgetJ (analyze_single_response gen question ai_response platform max_retries)
          "AI_Response" = some (.str ai_response)) := by
  unfold analyze_single_response
  cases hl : (attemptLoop gen question ai_response platform max_retries 0 max_retries).1 with
  | some r =>
    exact attemptLoop_sound gen question ai_response platform max_retries max_retries 0 r hl
  | none => exact Or.inr ⟨rfl, rfl, rfl⟩

theorem attemptLoop_returns (gen : Nat → Except String String) (q a p : String)
    (mr : Nat) :
    ∀ remaining attempt, attempt + remaining = mr → 1 ≤ remaining →
      ∃ r, (attemptLoop gen q a p mr attempt remaining).1 = some r := by
  intro remaining
  induction remaining with
  | zero => intro attempt hsum h1; exact absurd h1 (by omega)
  | succ n ih =>
    intro attempt hsum h1
    unfold attemptLoop
    cases hs : attemptStep gen attempt with
    | ok v => exact ⟨v, rfl⟩
    | error e =>
      cases n with
      | zero =>
        have hb : (attempt == mr - 1) = true := by
          have ha : attempt = mr - 1 := by omega
          simp [ha]
        rw [hb]
        exact ⟨failurePlaceholder q a p mr e, rfl⟩
      | succ m =>
        have hb : (attempt == mr - 1) = false := by
          have ha : attempt ≠ mr - 1 := by omega
          simp [ha]
        rw [hb]
        obtain ⟨r, hr⟩ := ih (attempt + 1) (by omega) (by omega)
        exact ⟨r, hr⟩

/-- C10: for `max_retries ≥ 1` the retry loop always returns from
within the loop (a parsed result or the final-attempt placeholder), so
the post-loop `"未知错误"` fallback is unreachable and the function's
value is the loop's value. -/
theorem c10_fallback_unreachable (gen : Nat → Except String String)
    (question ai_response platform : String) (max_retries : Nat)
    (h : 1 ≤ max_retries) :
    ∃ r, (attemptLoop gen question ai_response platform max_retries 0 max_retries).1 = some r
      ∧ analyze_single_response gen question ai_response platform max_retries = r := by
  obtain ⟨r, hr⟩ := attemptLoop_returns gen question ai_response platform
    max_retries max_retries 0 (by omega) h
  refine ⟨r, hr, ?_⟩
  unfold analyze_single_response
  rw [hr]

/-- Witness for C10 at a concrete always-failing generator and
`max_retries = 1`. -/
theorem c10_witness :
    ((attemptLoop genBoom "q" "r" "p" 1 0 1).1).isSome = true := by
  obtain ⟨r, h1, h2⟩ := c10_fallback_unreachable genBoom "q" "r" "p" 1 (by decide)
  rw [h1]
  rfl

theorem attemptLoop_allFail (gen : Nat → Except String String) (q a p : String)
    (mr : Nat)
    (hall : ∀ i, i < mr → stepIsError (attemptStep gen i) = true) :
    ∀ remaining attempt, attempt + remaining = mr → 1 ≤ remaining →
      attemptLoop gen q a p mr attempt remaining =
        (some (failurePlaceholder q a p mr (stepErrMsg gen (mr - 1))), remaining) := by
  intro remaining
  induction remaining with
  | zero => intro attempt hsum h1; exact absurd h1 (by omega)
  | succ n ih =>
    intro attempt hsum h1
    have hstep := hall attempt (by omega)
    unfold attemptLoop
    cases hs : attemptStep gen attempt with
    | ok v => rw [hs] at hstep; simp [stepIsError] at hstep
    | error e =>
      cases n with
      | zero =>
        have hb : (attempt == mr - 1) = true := by
          have ha : attempt = mr - 1 := by omega
          simp [ha]
        have he : e = stepErrMsg gen (mr - 1) := by
          have ha : attempt = mr - 1 := by omega
          rw [← ha]
          unfold stepErrMsg
          rw [hs]
        rw [hb, he]
        rfl
      | succ m =>
        have hb : (attempt == mr - 1) = false := by
          have ha : attempt ≠ mr - 1 := by omega
          simp [ha]
        rw [hb]
        have hih := ih (attempt + 1) (by omega) (by omega)
        rw [hih]
        rfl

/-- C5 (amended): the Record Processor's own retry loop is the single
retry layer and it retries on every failure kind uniformly — generation
error, recovery failure, or validation failure alike; when every attempt
fails it invokes the generator exactly `max_retries` times and returns
the placeholder carrying the last attempt's error message. -/
theorem c5_uniform_retry (gen : Nat → Except String String)
    (question ai_response platform : String) (max_retries : Nat)
    (h1 : 1 ≤ max_retries)
    (h2 : ∀ i, i < max_retries → stepIsError (attemptStep gen i) = true) :
    analyze_single_response gen question ai_response platform max_retries
      = failurePlaceholder question ai_response platform max_retries
          (stepErrMsg gen (max_retries - 1))
    ∧ analyzeGenCalls gen question ai_response platform max_retries = max_retries := by
  have h := attemptLoop_allFail gen question ai_response platform max_retries h2
    max_retries 0 (by omega) h1
  constructor
  · unfold analyze_single_response
    rw [h]
  · unfold analyzeGenCalls
    rw [h]

/-- Witness for the amended C5 at the always-raising generator stub and
the default `max_retries = 3`. -/
theorem c5_witness :
    analyze_single_response genBoom "q" "r" "p" 3
      = failurePlaceholder "q" "r" "p" 3 (stepErrMsg genBoom (3 - 1))
    ∧ analyzeGenCalls genBoom "q" "r" "p" 3 = 3 :=
  c5_uniform_retry genBoom "q" "r" "p" 3 (by decide) (by decide)

/-- Counterexample to C5 as stated: a generator whose reply parses but
fails required-field validation on the very first attempt is invoked
three times (once per attempt), not once — a validation failure does
trigger further generator invocations for the same record. -/
theorem c5_counterexample :
    analyzeGenCalls genInvalidFields "q" "r" "p" 3 = 3
    ∧ ¬ (analyzeGenCalls genInvalidFields "q" "r" "p" 3 ≤ 1)
    ∧ genInvalidFields 0 = .ok "\x7b\"x\":1\x7d"
    ∧ extract_and_parse_json (pyStrip "\x7b\"x\":1\x7d") = .ok (.obj [("x", .num 1)])
    ∧ stepIsError (attemptStep genInvalidFields 0) = true :=
  ⟨rfl, by decide, rfl, rfl, rfl⟩

/-- C6 (amended): the required-field validation accepts a recovered
dict exactly when every required field is PRESENT — values are never
inspected, so a present-but-empty field passes; consequently a reply
whose required fields are all empty strings is returned as a well-formed
result on the first attempt. -/
theorem c6_presence_only_validation :
    (∀ fields, (checkRequired (.obj fields) = .ok ()
        ↔ required_fields.all (fun f => hasKey fields f) = true))
    ∧ (∀ (gen : Nat → Except String String) (question ai_response platform : String)
        (max_retries : Nat) (t : String) (fields : List (String × JValue)),
        1 ≤ max_retries → gen 0 = .ok t →
        extract_and_parse_json (pyStrip t) = .ok (.obj fields) →
        required_fields.all (fun f => hasKey fields f) = true →
        analyze_single_response gen question ai_response platform max_retries = .obj fields) := by
  have hpres : ∀ fields, (checkRequired (JValue.obj fields) = .ok ()
      ↔ required_fields.all (fun f => hasKey fields f) = true) := by
    intro fields
    unfold checkRequired
    cases hc : required_fields.all (fun f => hasKey fields f) with
    | true => simp [hc]
    | false => simp [hc]
  refine ⟨hpres, ?_⟩
  intro gen question ai_response platform max_retries t fields h1 hg he hreq
  cases max_retries with
  | zero => exact absurd h1 (by omega)
  | succ n =>
    have hs : attemptStep gen 0 = .ok (.obj fields) := by
      unfold attemptStep
      rw [hg]
      simp only []
      rw [he]
      simp only []
      rw [(hpres fields).mpr hreq]
    have hloop : attemptLoop gen question ai_response platform (n + 1) 0 (n + 1)
        = (some (.obj fields), 1) := by
      unfold attemptLoop
      rw [hs]
    unfold analyze_single_response
    rw [hloop]

/-- Witness for the amended C6: the all-empty-fields reply is accepted
and returned unchanged. -/
theorem c6_witness :
    analyze_single_response genEmptyFields "q" "r" "p" 3 = .obj emptyFieldsObj :=
  c6_presence_only_validation.2 genEmptyFields "q" "r" "p" 3
    "\x7b\"Platform\":\"\",\"User_Query\":\"\",\"AI_Response\":\"\",\"Security_Status\":\"\"\x7d"
    emptyFieldsObj (by decide) rfl rfl (by decide)

/-- Counterexample to C6 as stated: a recovered structure whose four
required fields are present but empty is NOT treated as a validation
failure — the processor returns it as a well-formed result whose status
is the empty string, not the sentinel. -/
theorem c6_counterexample :
    analyze_single_response genEmptyFields "q" "r" "p" 3 = .obj emptyFieldsObj
    ∧ jgetJ (.obj emptyFieldsObj) "Security_Status" = some (.str "")
    ∧ ("" : String) ≠ sentinelStatus :=
  ⟨rfl, rfl, by decide⟩

theorem batchLoop_spec (procF : String → String → String → List (String × JValue))
    (csv_path : String) (total : Nat) (start_time : String) (rows : List Row) :
    ∀ todo idx results,
      batchLoop (fun q a p => .obj (procF q a p)) csv_path total start_time rows todo idx results
        = (.ok (results ++ expectedResultsFrom procF todo idx),
           snapTrace procF csv_path total start_time rows todo idx results) := by
  intro todo
  induction todo with
  | nil =>
    intro idx results
    simp [batchLoop, expectedResultsFrom, snapTrace]
  | cons row todo ih =>
    intro idx results
    unfold batchLoop expectedResultsFrom snapTrace
    cases hskip : rowSkipped row with
    | true =>
      simp only [if_true]
      rw [ih (idx + 1) results]
    | false =>
      simp only [Bool.false_eq_true, if_false]
      rw [ih (idx + 1)
        (results ++ [decorateBatch
          (procF (row.question.getD "") (row.answer.getD "") (row.platform.getD ""))
          row (idx + 1)])]
      simp [List.append_assoc]

theorem snapTrace_length (procF : String → String → String → List (String × JValue))
    (csv_path : String) (total : Nat) (start_time : String) (rows : List Row) :
    ∀ todo idx results,
      (snapTrace procF csv_path total start_time rows todo idx results).length
        = todo.length := by
  intro todo
  induction todo with
  | nil => intro idx results; rfl
  | cons row todo ih =>
    intro idx results
    unfold snapTrace
    cases hskip : rowSkipped row with
    | true => simp [ih]
    | false => simp [ih]

theorem expectedResultsFrom_length (procF : String → String → String → List (String × JValue)) :
    ∀ todo idx,
      (expectedResultsFrom procF todo idx).length
        = (todo.filter (fun r => !rowSkipped r)).length := by
  intro todo
  induction todo with
  | nil => intro idx; rfl
  | cons row todo ih =>
    intro idx
    unfold expectedResultsFrom
    cases hskip : rowSkipped row with
    | true => simp [List.filter, hskip, ih]
    | false => simp [List.filter, hskip, ih]

theorem length_filter_split :
    ∀ l : List Row,
      ((l.filter fun r => !rowSkipped r).length + (l.filter rowSkipped).length = l.length) := by
  intro l
  induction l with
  | nil => rfl
  | cons row l ih =>
    cases hskip : rowSkipped row with
    | true => simp [List.filter, hskip]; omega
    | false => simp [List.filter, hskip]; omega

theorem expectedResultsFrom_cons_skip
    (procF : String → String → String → List (String × JValue))
    (row : Row) (todo : List Row) (idx : Nat) (h : rowSkipped row = true) :
    expectedResultsFrom procF (row :: todo) idx
      = expectedResultsFrom procF todo (idx + 1) := by
  simp [expectedResultsFrom, h]

theorem expectedResultsFrom_cons_keep
    (procF : String → String → String → List (String × JValue))
    (row : Row) (todo : List Row) (idx : Nat) (h : rowSkipped row = false) :
    expectedResultsFrom procF (row :: todo) idx
      = decorateBatch
          (procF (row.question.getD "") (row.answer.getD "") (row.platform.getD ""))
          row (idx + 1)
        :: expectedResultsFrom procF todo (idx + 1) := by
  simp [expectedResultsFrom, h]

theorem snapTrace_getD (procF : String → String → String → List (String × JValue))
    (csv_path : String) (total : Nat) (start_time : String) (rows : List Row) :
    ∀ todo idx results i, i < todo.length →
      (snapTrace procF csv_path total start_time rows todo idx results).getD i dummySnap
        = save_progress csv_path total (idx + i + 1)
            (results ++ expectedResultsFrom procF (todo.take (i + 1)) idx) start_time rows := by
  intro todo
  induction todo with
  | nil => intro idx results i h; exact absurd h (by simp)
  | cons row todo ih =>
    intro idx results i h
    cases i with
    | zero =>
      unfold snapTrace
      cases hskip : rowSkipped row with
      | true =>
        simp only [if_true, List.getD_cons_zero, List.take_succ_cons, List.take_zero]
        unfold expectedResultsFrom
        rw [hskip]
        simp [expectedResultsFrom]
      | false =>
        simp only [Bool.false_eq_true, if_false, List.getD_cons_zero, List.take_succ_cons,
          List.take_zero]
        unfold expectedResultsFrom
        rw [hskip]
        simp [expectedResultsFrom]
    | succ j =>
      unfold snapTrace
      cases hskip : rowSkipped row with
      | true =>
        simp only [if_true, List.getD_cons_succ]
        rw [ih (idx + 1) results j (by simpa using h)]
        rw [List.take_succ_cons, expectedResultsFrom_cons_skip procF row _ idx hskip]
        congr 1
        omega
      | false =>
        simp only [Bool.false_eq_true, if_false, List.getD_cons_succ]
        rw [ih (idx + 1)
          (results ++ [decorateBatch
            (procF (row.question.getD "") (row.answer.getD "") (row.platform.getD ""))
            row (idx + 1)]) j (by simpa using h)]
        rw [List.take_succ_cons, expectedResultsFrom_cons_keep procF row _ idx hskip]
        rw [List.append_assoc]
        congr 1
        omega

/-- Counterexample to C1 as stated: a fresh run over a single record
whose question is empty COMPLETES but returns an empty result
collection — 0 entries for N = 1 input records, because the skip branch
advances past the record without appending any result (well-formed or
placeholder). -/
theorem c1_counterexample :
    (analyze_csv_data (fun _ _ _ => JValue.obj stubFields) "data.csv" "t0"
        [skipRow] none).1 = .ok []
    ∧ [skipRow].length = 1
    ∧ ¬ (([] : List JValue).length = 1) :=
  ⟨rfl, rfl, by decide⟩

/-- C1 (amended): a completed fresh run returns exactly one decorated
result per record whose question and response are both non-empty, in
input order; a record with an empty question or response is skipped and
contributes no entry, so the result count is the number of non-skipped
records rather than the total input count. -/
theorem c1_completeness (procF : String → String → String → List (String × JValue))
    (csv_path start_time : String) (rows : List Row) :
    (analyze_csv_data (fun q a p => .obj (procF q a p)) csv_path start_time rows none).1
        = .ok (expectedResultsFrom procF rows 0)
    ∧ (expectedResultsFrom procF rows 0).length
        = (rows.filter (fun r => !rowSkipped r)).length := by
  constructor
  · unfold analyze_csv_data
    rw [batchLoop_spec procF csv_path rows.length start_time rows rows 0 []]
    simp
  · exact expectedResultsFrom_length procF rows 0

/-- Counterexample to C2 as stated: the save performed when a record is
skipped advances `processed` without appending to `results`, so the
persisted snapshot after a skipped first record has `processed = 1` but
an empty results list. -/
theorem c2_counterexample :
    ((((analyze_csv_data (fun _ _ _ => JValue.obj stubFields) "data.csv" "t0"
          [skipRow] none).2).getD 0 dummySnap).processed = 1)
    ∧ ((((analyze_csv_data (fun _ _ _ => JValue.obj stubFields) "data.csv" "t0"
          [skipRow] none).2).getD 0 dummySnap).results.length = 0)
    ∧ (1 : Nat) ≠ 0 :=
  ⟨rfl, rfl, by decide⟩

/-- C2 (amended): in a fresh run, every persisted snapshot satisfies
`processed = length(results) + (number of skipped records among the
first processed records)`; in particular `processed` equals the length
of the persisted results exactly when no record among the first
`processed` was skipped. -/
theorem c2_ledger_invariant (procF : String → String → String → List (String × JValue))
    (csv_path start_time : String) (rows : List Row) (i : Nat)
    (h : i < ((analyze_csv_data (fun q a p => .obj (procF q a p))
        csv_path start_time rows none).2).length) :
    (((analyze_csv_data (fun q a p => .obj (procF q a p))
        csv_path start_time rows none).2).getD i dummySnap).processed
      = (((analyze_csv_data (fun q a p => .obj (procF q a p))
          csv_path start_time rows none).2).getD i dummySnap).results.length
        + ((rows.take (i + 1)).filter rowSkipped).length := by
  have hsn : (analyze_csv_data (fun q a p => .obj (procF q a p))
      csv_path start_time rows none).2
      = snapTrace procF csv_path rows.length start_time rows rows 0 [] := by
    unfold analyze_csv_data
    rw [batchLoop_spec procF csv_path rows.length start_time rows rows 0 []]
  rw [hsn] at h
  rw [hsn]
  have hlen : i < rows.length := by
    rw [snapTrace_length] at h
    exact h
  rw [snapTrace_getD procF csv_path rows.length start_time rows rows 0 [] i hlen]
  simp only [save_progress, List.nil_append]
  rw [expectedResultsFrom_length]
  have hsplit := length_filter_split (rows.take (i + 1))
  have htake : (rows.take (i + 1)).length = i + 1 := by
    rw [List.length_take]
    omega
  omega

/-- Witness for the amended C2 on a one-record run with nothing
skipped. -/
theorem c2_witness :
    (((analyze_csv_data (fun _ _ _ => JValue.obj stubFields) "data.csv" "t0"
        [okRow] none).2).getD 0 dummySnap).processed
      = (((analyze_csv_data (fun _ _ _ => JValue.obj stubFields) "data.csv" "t0"
          [okRow] none).2).getD 0 dummySnap).results.length
        + (([okRow].take (0 + 1)).filter rowSkipped).length :=
  c2_ledger_invariant (fun _ _ _ => stubFields) "data.csv" "t0" [okRow] 0 (by decide)

/-- C8: in a fresh run the ledger persisted for record k (the k-th
snapshot, k = i+1) records `processed = k` and contains exactly the
results derived from the first k records — no entry for record k+1
exists in any snapshot persisted before record k+1 is dispatched, which
is the at-most-one-loss guarantee. -/
theorem c8_persist_before_dispatch
    (procF : String → String → String → List (String × JValue))
    (csv_path start_time : String) (rows : List Row) (i : Nat)
    (h : i < ((analyze_csv_data (fun q a p => .obj (procF q a p))
        csv_path start_time rows none).2).length) :
    (((analyze_csv_data (fun q a p => .obj (procF q a p))
        csv_path start_time rows none).2).getD i dummySnap).processed = i + 1
    ∧ (((analyze_csv_data (fun q a p => .obj (procF q a p))
        csv_path start_time rows none).2).getD i dummySnap).results
      = expectedResultsFrom procF (rows.take (i + 1)) 0 := by
  have hsn : (analyze_csv_data (fun q a p => .obj (procF q a p))
      csv_path start_time rows none).2
      = snapTrace procF csv_path rows.length start_time rows rows 0 [] := by
    unfold analyze_csv_data
    rw [batchLoop_spec procF csv_path rows.length start_time rows rows 0 []]
  rw [hsn] at h
  rw [hsn]
  have hlen : i < rows.length := by
    rw [snapTrace_length] at h
    exact h
  rw [snapTrace_getD procF csv_path rows.length start_time rows rows 0 [] i hlen]
  constructor
  · simp [save_progress]
  · simp [save_progress]

/-- Witness for C8 on a one-record run. -/
theorem c8_witness :
    (((analyze_csv_data (fun _ _ _ => JValue.obj stubFields) "data.csv" "t0"
        [okRow] none).2).getD 0 dummySnap).processed = 0 + 1
    ∧ (((analyze_csv_data (fun _ _ _ => JValue.obj stubFields) "data.csv" "t0"
        [okRow] none).2).getD 0 dummySnap).results
      = expectedResultsFrom (fun _ _ _ => stubFields) ([okRow].take (0 + 1)) 0 :=
  c8_persist_before_dispatch (fun _ _ _ => stubFields) "data.csv" "t0" [okRow] 0 (by decide)

theorem findFailedAux_ge :
    ∀ (rs : List (List (String × JValue))) (k i : Nat),
      i ∈ findFailedAux rs k → k ≤ i := by
  intro rs
  induction rs with
  | nil => intro k i h; simp [findFailedAux] at h
  | cons r rs ih =>
    intro k i h
    unfold findFailedAux at h
    cases hf : isFailed r with
    | true =>
      rw [hf] at h
      simp only [if_true, List.mem_cons] at h
      cases h with
      | inl heq => omega
      | inr hmem =>
        have := ih (k + 1) i hmem
        omega
    | false =>
      rw [hf] at h
      simp only [Bool.false_eq_true, if_false] at h
      have := ih (k + 1) i h
      omega

theorem not_mem_findFailedAux :
    ∀ (rs : List (List (String × JValue))) (k j : Nat),
      isFailed (rs.getD j []) = false → ¬ ((k + j) ∈ findFailedAux rs k) := by
  intro rs
  induction rs with
  | nil => intro k j hj h; simp [findFailedAux] at h
  | cons r rs ih =>
    intro k j hj h
    unfold findFailedAux at h
    cases hf : isFailed r with
    | true =>
      rw [hf] at h
      simp only [if_true, List.mem_cons] at h
      cases h with
      | inl heq =>
        have hj0 : j = 0 := by omega
        rw [hj0] at hj
        have hr : isFailed r = false := by simpa [List.getD] using hj
        rw [hr] at hf
        cases hf
      | inr hmem =>
        cases j with
        | zero =>
          have := findFailedAux_ge rs (k + 1) (k + 0) hmem
          omega
        | succ j2 =>
          have hj2 : isFailed (rs.getD j2 []) = false := by simpa [List.getD] using hj
          have heq : k + (j2 + 1) = (k + 1) + j2 := by omega
          rw [heq] at hmem
          exact ih (k + 1) j2 hj2 hmem
    | false =>
      rw [hf] at h
      simp only [Bool.false_eq_true, if_false] at h
      cases j with
      | zero =>
        have := findFailedAux_ge rs (k + 1) (k + 0) h
        omega
      | succ j2 =>
        have hj2 : isFailed (rs.getD j2 []) = false := by simpa [List.getD] using hj
        have heq : k + (j2 + 1) = (k + 1) + j2 := by omega
        rw [heq] at h
        exact ih (k + 1) j2 hj2 h

theorem findFailedAux_nil_of_all :
    ∀ (rs : List (List (String × JValue))) (k : Nat),
      rs.all (fun r => !isFailed r) = true → findFailedAux rs k = [] := by
  intro rs
  induction rs with
  | nil => intro k hall; rfl
  | cons r rs ih =>
    intro k hall
    simp only [List.all_cons, Bool.and_eq_true, Bool.not_eq_eq_eq_not, Bool.not_true] at hall
    unfold findFailedAux
    rw [hall.1]
    simp only [Bool.false_eq_true, if_false]
    exact ih (k + 1) (by simpa using hall.2)

theorem getD_set_ne {α : Type} (x d : α) :
    ∀ (l : List α) (f j : Nat), f ≠ j → (l.set f x).getD j d = l.getD j d := by
  intro l
  induction l with
  | nil => intro f j hne; rfl
  | cons a l ih =>
    intro f j hne
    cases f with
    | zero =>
      cases j with
      | zero => exact absurd rfl hne
      | succ j2 => rfl
    | succ f2 =>
      cases j with
      | zero => rfl
      | succ j2 => exact ih f2 j2 (by omega)

theorem reanalyze_ok (procF : JValue → JValue → JValue → List (String × JValue)) :
    ∀ (failed : List Nat) (acc : List (List (String × JValue))),
      ∃ acc2,
        reanalyze_failed_items (fun q a p => .obj (procF q a p)) acc failed = .ok acc2
        ∧ acc2.length = acc.length
        ∧ ∀ j, ¬ (j ∈ failed) → acc2.getD j [] = acc.getD j [] := by
  intro failed
  induction failed with
  | nil => intro acc; exact ⟨acc, rfl, rfl, fun j hj => rfl⟩
  | cons fidx failed ih =>
    intro acc
    have hstep : reanalyze_failed_items (fun q a p => .obj (procF q a p)) acc (fidx :: failed)
        = reanalyze_failed_items (fun q a p => .obj (procF q a p))
            (acc.set fidx
              (dictSet
                (dictSet
                  (procF ((jget (acc.getD fidx []) "User_Query").getD (.str ""))
                    ((jget (acc.getD fidx []) "AI_Response").getD (.str ""))
                    ((jget (acc.getD fidx []) "Platform").getD (.str "")))
                  "序号" ((jget (acc.getD fidx []) "序号").getD (.str "")))
                "填写人" ((jget (acc.getD fidx []) "填写人").getD (.str ""))))
            failed := rfl
    rw [hstep]
    obtain ⟨acc2, h1, h2, h3⟩ := ih (acc.set fidx _)
    refine ⟨acc2, h1, ?_, ?_⟩
    · rw [h2, List.length_set]
    · intro j hj
      have hne : fidx ≠ j := by
        intro hcontra
        exact hj (by rw [← hcontra]; exact List.mem_cons_self fidx failed)
      rw [h3 j (fun hmem => hj (List.mem_cons_of_mem fidx hmem))]
      exact getD_set_ne _ [] acc fidx j hne

/-- C9: Failure Triage (`find_failed_analyses` followed by
`reanalyze_failed_items`) modifies only entries whose status equals the
reserved sentinel: the collection keeps its length and order, every
entry whose status differs from the sentinel is returned unchanged, and
on a collection with no sentinel entries (an already-fully-recovered
collection) the whole collection is returned with no changes, so a
second triage run after full recovery is a no-op. -/
theorem c9_triage_touches_only_placeholders
    (procF : JValue → JValue → JValue → List (String × JValue))
    (results : List (List (String × JValue))) :
    (∃ results2,
        reanalyze_failed_items (fun q a p => .obj (procF q a p)) results
            (find_failed_analyses results) = .ok results2
        ∧ results2.length = results.length
        ∧ ∀ j, isFailed (results.getD j []) = false →
            results2.getD j [] = results.getD j [])
    ∧ (results.all (fun r => !isFailed r) = true →
        reanalyze_failed_items (fun q a p => .obj (procF q a p)) results
            (find_failed_analyses results) = .ok results) := by
  constructor
  · obtain ⟨r2, h1, h2, h3⟩ := reanalyze_ok procF (find_failed_analyses results) results
    refine ⟨r2, h1, h2, fun j hj => h3 j ?_⟩
    intro hmem
    refine not_mem_findFailedAux results 0 j hj ?_
    simpa using hmem
  · intro hall
    unfold find_failed_analyses
    rw [findFailedAux_nil_of_all results 0 hall]
    rfl

/-- Witness for C9: triage of an already-fully-recovered collection is
the identity. -/
theorem c9_witness :
    reanalyze_failed_items
      (fun q a p => JValue.obj
        [("Platform", p), ("User_Query", q), ("AI_Response", a),
         ("Security_Status", JValue.str "🟢安全")])
      resolvedResults (find_failed_analyses resolvedResults) = .ok resolvedResults :=
  (c9_triage_touches_only_placeholders
    (fun q a p => [("Platform", p), ("User_Query", q), ("AI_Response", a),
      ("Security_Status", JValue.str "🟢安全")])
    resolvedResults).2 (by decide)
